import Mathlib

/-!
Verification of the convolution asymmetric-padding transformation subsystem of
the CUDA plugin (`src/modules/cuda_plugin/src/transformer/`), as a shallow
embedding in Lean 4.

The embedding covers:
* the custom fused transposed-convolution node
  `CUDAPlugin::nodes::FusedConvBackpropData`
  (`transformer/nodes/fused_convolution_backprop_data.cpp`): its shape query
  `get_output_shape`, its spatial-shape inference
  `infer_conv_backprop_output_spatial_shape` and its full
  `validate_and_infer_types` / `conv_validate_and_infer_types`;
* the forward and backprop rewrite callbacks
  (`transformer/convolution_asym_padding_transformation.cpp`):
  `convolution_with_padding` and `convolution_backprop_data_with_padding`.

External graph-IR collaborators (constant folding, the generic Pad node, the
StridedSlice node, the upstream convolution-family shape inference and the
`get_shape` accessor that throws on a dynamic shape) are modelled from the
spec where their code is not part of this repository; each such definition
carries a doc comment starting `Modelled from the spec:`.

Conventions of the embedding:
* machine integers (`int64_t`, `ptrdiff_t`, `size_t` converted to `int64_t`
  by the source before arithmetic) are `Int`;
* a tensor dimension is `Option Int` (`none` = dynamic), a partial shape is
  `PShape` (dynamic rank or a list of dimensions), a static shape a
  `List Int`;
* C++ code that throws (`NODE_VALIDATION_CHECK`, `Expects`, `get_shape` on a
  dynamic shape) is `Except String`; a matcher callback returning `false`
  ("did not rewrite, graph untouched") is `.ok none`, a successful rewrite
  `.ok (some r)` where `r` records the constructed replacement subgraph.
-/

namespace ConvAsymPad

/-- Element types of the graph IR (`ngraph::element::Type`); `dynamicT` is
the dynamic element type, the listed static types suffice for this core. -/
inductive ElemType where
  | dynamicT : ElemType
  | f32 : ElemType
  | f16 : ElemType
  | i64 : ElemType
  | i32 : ElemType
deriving DecidableEq

/-- Modelled from the spec: `ngraph::element::Type::merge` (external graph-IR
collaborator) — a dynamic type merges with anything, two static types merge
only when equal. -/
def ElemType.merge : ElemType → ElemType → Option ElemType
  | .dynamicT, b => some b
  | a, .dynamicT => some a
  | a, b => if a = b then some a else none

/-- `ngraph::op::PadType` (the auto-pad mode enumeration). -/
inductive PadType where
  | explicitP : PadType
  | sameUpper : PadType
  | sameLower : PadType
  | validP : PadType
  | auto : PadType
  | notset : PadType
deriving DecidableEq

/-- `ngraph::PartialShape`: dynamic rank, or a static rank with per-dimension
extents that may each be dynamic (`none`). -/
inductive PShape where
  | dyn : PShape
  | ranked : List (Option Int) → PShape
deriving DecidableEq

/-- `PartialShape::is_dynamic()`: dynamic rank or some dynamic dimension. -/
def PShape.isDynamic : PShape → Bool
  | .dyn => true
  | .ranked ds => ds.any (fun d => d.isNone)

/-- `PartialShape::is_static()`. -/
def PShape.isStatic (p : PShape) : Bool := !p.isDynamic

/-- `PartialShape::rank().is_static()`. -/
def PShape.rankStatic : PShape → Bool
  | .dyn => false
  | .ranked _ => true

/-- The dimension list of a ranked partial shape (empty for dynamic rank;
only used behind `rankStatic` guards, as the source only calls the
corresponding accessors on rank-static shapes). -/
def PShape.dims : PShape → List (Option Int)
  | .dyn => []
  | .ranked ds => ds

/-- `PartialShape::rank().get_length()` for a rank-static shape. -/
def PShape.rankLen (p : PShape) : Nat := p.dims.length

/-- `PartialShape::to_shape()`: the static extents. Only used behind
`isStatic` guards, as in the source; a dynamic dimension defaults to 0. -/
def PShape.toShape : PShape → List Int
  | .dyn => []
  | .ranked ds => ds.map (fun d => d.getD 0)

/-- A fully static partial shape. -/
def PShape.ofStatic (s : List Int) : PShape := .ranked (s.map some)

/-- `PartialShape::dynamic(rank)`: dynamic shape of the given (possibly
dynamic) rank. -/
def PShape.dynamicOfRank : PShape → PShape
  | .dyn => .dyn
  | .ranked ds => .ranked (List.replicate ds.length none)

/-- Modelled from the spec: `ov::Output::get_shape()` (external graph-IR
collaborator, §6 "output shape/type accessors") — returns the static shape
and throws when the shape is dynamic. -/
def getShape (p : PShape) : Except String (List Int) :=
  if p.isStatic then .ok p.toShape
  else .error "get_shape was called on a descriptor with dynamic shape"

/- Small facts about the shape model. -/

theorem isDynamic_ofStatic (s : List Int) : (PShape.ofStatic s).isDynamic = false := by
  induction s with
  | nil => rfl
  | cons a t ih =>
      simp [PShape.ofStatic, PShape.isDynamic] at ih ⊢

theorem isStatic_ofStatic (s : List Int) : (PShape.ofStatic s).isStatic = true := by
  simp [PShape.isStatic, isDynamic_ofStatic]

theorem toShape_ofStatic (s : List Int) : (PShape.ofStatic s).toShape = s := by
  simp only [PShape.ofStatic, PShape.toShape, List.map_map]
  exact List.map_id s

theorem getShape_ofStatic (s : List Int) : getShape (PShape.ofStatic s) = .ok s := by
  simp [getShape, isStatic_ofStatic, toShape_ofStatic]

theorem getShape_dynamic (p : PShape) (h : p.isDynamic = true) :
    getShape p = .error "get_shape was called on a descriptor with dynamic shape" := by
  simp [getShape, PShape.isStatic, h]

/-- Convenience: `List.getD` of a `(List.range n).map f` list (the embedding
of a C++ `for (i = 0; i < n; ++i) out.push_back(f(i))` loop). -/
theorem rangeMap_getD {α : Type} (n i : Nat) (f : Nat → α) (d : α) (h : i < n) :
    (((List.range n).map f).getD i d) = f i := by
  rw [List.getD_eq_getElem?_getD, List.getElem?_map, List.getElem?_range h]
  rfl

theorem rangeMap_length {α : Type} (n : Nat) (f : Nat → α) :
    ((List.range n).map f).length = n := by simp

/-!
## The custom fused transposed-convolution node

`CUDAPlugin::nodes::FusedConvBackpropData`
(`transformer/nodes/fused_convolution_backprop_data.cpp`).

A node value records, for a constructed node instance: the partial shapes and
element types of its data (input 0) and filters (input 1) sources, the input
count (3 for the `(data, filters, add)` form, 4 for the
`(data, filters, outputShape, add)` form), the result of
`get_constant_from_source(input_value(2))` (`input2Const`, `none` when input 2
does not fold to a constant — note input 2 is the output-shape input in the
4-input form but the `add` input in the 3-input form), the node attributes,
and the shape and element type of the `add` input captured at construction
(`add_shape_`, `add_type_`).
-/

structure FusedConvBackpropData where
  numInputs : Nat
  dataShape : PShape
  dataType : ElemType
  filtersShape : PShape
  filtersType : ElemType
  input2Const : Option (List Int)
  strides : List Int
  pads_begin : List Int
  pads_end : List Int
  dilations : List Int
  auto_pad : PadType
  output_padding : List Int
  addShape : List Int
  addType : ElemType
deriving DecidableEq

/-- `FusedConvBackpropData::get_output_shape` (source lines 214-232): default
to a rank-many list of dynamic dimensions (data rank minus 2 when the data
rank is static, else the stride count); when `inputs().size() == 3` the
output-shape input is taken as present and the constant folded from
`input_value(2)` overrides the default (fully dynamic when input 2 is not
constant).  The upstream `get_output_shape` /
`get_convolution_output_shape` queries of the non-fused backprop node kinds
have this same body (there the 3-input form really is the one with the
output-shape input), so this core also serves as their model. -/
def backpropShapeQueryCore (dataShape : PShape) (strides : List Int)
    (numInputs : Nat) (input2Const : Option (List Int)) : PShape :=
  let base : PShape :=
    if dataShape.rankStatic then .ranked (List.replicate (dataShape.rankLen - 2) none)
    else .ranked (List.replicate strides.length none)
  if numInputs == 3 then
    match input2Const with
    | some v => PShape.ofStatic v
    | none => PShape.dyn
  else base

def FusedConvBackpropData.get_output_shape (n : FusedConvBackpropData) : PShape :=
  backpropShapeQueryCore n.dataShape n.strides n.numInputs n.input2Const

/-- The loop body of
`FusedConvBackpropData::infer_conv_backprop_output_spatial_shape`
(source lines 249-258): one output dimension per spatial index `i`, the
static formula `S*(L-1) + D*(F-1) + 1 - Pb - Pe + Op` when both the input
and the filter extent are static, dynamic otherwise. -/
def backpropSpatialDims (input_data_shape filters_shape : List (Option Int))
    (strides dilations pads_begin pads_end output_padding : List Int) :
    List (Option Int) :=
  (List.range input_data_shape.length).map fun i =>
    match input_data_shape.getD i none, filters_shape.getD i none with
    | some l, some f =>
        some (strides.getD i 0 * (l - 1) + dilations.getD i 0 * (f - 1) + 1
              - pads_begin.getD i 0 - pads_end.getD i 0 + output_padding.getD i 0)
    | _, _ => none

/-- `FusedConvBackpropData::infer_conv_backprop_output_spatial_shape`
(source lines 234-259): `NODE_VALIDATION_CHECK` that every argument sequence
has exactly `num_spatial_dims = input_data_shape.size()` entries, then the
per-dimension computation. -/
def infer_conv_backprop_output_spatial_shape
    (input_data_shape filters_shape : List (Option Int))
    (strides dilations : List Int)
    (pads_begin pads_end output_padding : List Int) :
    Except String (List (Option Int)) :=
  let n := input_data_shape.length
  if filters_shape.length = n ∧ strides.length = n ∧ dilations.length = n ∧
      pads_begin.length = n ∧ pads_end.length = n ∧ output_padding.length = n then
    .ok (backpropSpatialDims input_data_shape filters_shape strides dilations
          pads_begin pads_end output_padding)
  else
    .error "Validation check failed: argument sequence lengths must all equal the number of spatial dimensions"

/-- Modelled from the spec: `ngraph::opset1::infer_conv_backprop_auto_padding`
(the "standard auto-pad inference rule", external to this repository) — per
spatial dimension the total padding is
`max(S*(L-1) + D*(F-1) + 1 - out + Op, 0)`, split into halves with the larger
half at the end for SAME_UPPER and at the beginning otherwise.  Returns
(pads_begin, pads_end). -/
def inferConvBackpropAutoPadding (input_spatial filter_spatial output_shape : List Int)
    (strides dilations : List Int) (auto_pad : PadType) (output_padding : List Int) :
    List Int × List Int :=
  let totals := (List.range input_spatial.length).map fun i =>
    max (strides.getD i 0 * (input_spatial.getD i 0 - 1)
         + dilations.getD i 0 * (filter_spatial.getD i 0 - 1) + 1
         - output_shape.getD i 0 + output_padding.getD i 0) 0
  if auto_pad = .sameUpper then
    (totals.map fun t => t / 2, totals.map fun t => t - t / 2)
  else
    (totals.map fun t => t - t / 2, totals.map fun t => t / 2)

/-- The resolved attributes and inferred output of one
`validate_and_infer_types` run: the merged element type, the inferred output
partial shape, and the attribute vectors after default filling and auto-pad
resolution (the source mutates the member fields `pads_begin_`, `pads_end_`,
`strides_`, `dilations_`, `output_padding_` in place). -/
structure InferOut where
  resultType : ElemType
  outShape : PShape
  padsBegin : List Int
  padsEnd : List Int
  strides : List Int
  dilations : List Int
  outputPadding : List Int
deriving DecidableEq

/-- `FusedConvBackpropData::conv_validate_and_infer_types`
(source lines 91-212), parameterized so that the same algorithm also serves
as the model of the upstream backprop shape inference (of which the source
function is a copy): with `grouped := false` and `numInputs` of the fused
node it is the source function verbatim; with `grouped := false` and the
upstream 2/3-input counts it is the model of
`ov::op::v1::ConvolutionBackpropData::validate_and_infer_types` and with
`grouped := true` of the grouped variant (Modelled from the spec: channel
count `filters[0]*filters[2]` and filter spatial dimensions from index 3 for
the grouped variant, which is external to this repository).

Steps, in source order: compute the output-shape query (line 98,
`is_output_shape_present = inputs().size() == 3`); merge the data and filter
element types (lines 101-107); when both ranks are static, default-fill empty
attribute vectors and check that strides/dilations/output-padding all have
`data rank - 2` entries (lines 109-139); then either read the (static)
requested output shape, derive pads for the SAME auto-pad modes and prepend
the filter output-channel count and the batch size (lines 142-176), or zero
the pads for SAME/VALID modes and deduce the spatial shape from the data
shape (lines 179-207). -/
def convBackpropInferCore (grouped : Bool) (numInputs : Nat)
    (dataShape : PShape) (dataType : ElemType)
    (filtersShape : PShape) (filtersType : ElemType)
    (input2Const : Option (List Int))
    (strides0 padsBegin0 padsEnd0 dilations0 outputPadding0 : List Int)
    (auto_pad : PadType) : Except String InferOut :=
  let fOff : Nat := if grouped then 3 else 2
  let outCh : List Int → Int := fun fs =>
    if grouped then fs.getD 0 0 * fs.getD 2 0 else fs.getD 1 0
  let is_output_shape_present : Bool := numInputs == 3
  let output_pshape0 := backpropShapeQueryCore dataShape strides0 numInputs input2Const
  match ElemType.merge dataType filtersType with
  | none => .error "Element types for data batch and filters do not match"
  | some result_et =>
    let rankBlock : Except String (List Int × List Int × List Int × List Int × List Int) :=
      if dataShape.rankStatic && filtersShape.rankStatic then
        let nsp := dataShape.rankLen - 2
        let pb := if padsBegin0.length = 0 then List.replicate nsp (0 : Int) else padsBegin0
        let pe := if padsEnd0.length = 0 then List.replicate nsp (0 : Int) else padsEnd0
        let op := if outputPadding0.length = 0 then List.replicate nsp (0 : Int) else outputPadding0
        let st := if strides0.length = 0 then List.replicate nsp (1 : Int) else strides0
        let di := if dilations0.length = 0 then List.replicate nsp (1 : Int) else dilations0
        if st.length ≠ nsp then
          .error "Strides should be defined for all and only spatial features."
        else if di.length ≠ nsp then
          .error "Dilations should be defined for all and only spatial features."
        else if op.length ≠ nsp then
          .error "Output padding should be defined for all and only spatial features."
        else .ok (st, pb, pe, di, op)
      else .ok (strides0, padsBegin0, padsEnd0, dilations0, outputPadding0)
    match rankBlock with
    | .error e => .error e
    | .ok (st, pb, pe, di, op) =>
      if is_output_shape_present then
        if output_pshape0.isStatic && filtersShape.isStatic && dataShape.isStatic then
          let output_shape := output_pshape0.toShape
          let data_shape := dataShape.toShape
          let filters_shape := filtersShape.toShape
          let nsp := data_shape.length - 2
          if output_shape.length ≠ nsp then
            .error "Output shape should be specified only and for all spatial dimensions."
          else
            let pads :=
              if auto_pad = .sameUpper ∨ auto_pad = .sameLower then
                inferConvBackpropAutoPadding (data_shape.drop 2) (filters_shape.drop fOff)
                  output_shape st di auto_pad op
              else (pb, pe)
            .ok ⟨result_et,
                 .ofStatic (data_shape.getD 0 0 :: outCh filters_shape :: output_shape),
                 pads.1, pads.2, st, di, op⟩
        else .ok ⟨result_et, output_pshape0, pb, pe, st, di, op⟩
      else
        let pb2 := if auto_pad = .sameUpper ∨ auto_pad = .sameLower ∨ auto_pad = .validP then
            List.replicate pb.length (0 : Int) else pb
        let pe2 := if auto_pad = .sameUpper ∨ auto_pad = .sameLower ∨ auto_pad = .validP then
            List.replicate pe.length (0 : Int) else pe
        if dataShape.rankStatic && filtersShape.isStatic then
          match infer_conv_backprop_output_spatial_shape
              (dataShape.dims.drop 2) (filtersShape.dims.drop fOff) st di pb2 pe2 op with
          | .error e => .error e
          | .ok spatial =>
              .ok ⟨result_et,
                   .ranked (dataShape.dims.getD 0 none
                            :: some (outCh filtersShape.toShape) :: spatial),
                   pb2, pe2, st, di, op⟩
        else .ok ⟨result_et, dataShape.dynamicOfRank, pb2, pe2, st, di, op⟩

def FusedConvBackpropData.conv_validate_and_infer_types (n : FusedConvBackpropData) :
    Except String InferOut :=
  convBackpropInferCore false n.numInputs n.dataShape n.dataType n.filtersShape
    n.filtersType n.input2Const n.strides n.pads_begin n.pads_end n.dilations
    n.output_padding n.auto_pad

/-- `FusedConvBackpropData::validate_and_infer_types` (source lines 261-267):
run the convolution inference, then `Expects(element_type == add_type_)`.
The source also fetches `get_output_shape()` into `conv_out_shape`, but the
shape comparison `Expects(conv_out_shape == add_shape_)` is commented out, so
the fetched value is unused and only the element-type assertion remains. -/
def FusedConvBackpropData.validate_and_infer_types (n : FusedConvBackpropData) :
    Except String InferOut :=
  match n.conv_validate_and_infer_types with
  | .error e => .error e
  | .ok r =>
      if r.resultType = n.addType then .ok r
      else .error "Expects failed: element_type == add_type_"

/-!
## External node kinds used by the rewrites

The rewrites build `ov::op::v1::Pad` and `ov::op::v1::StridedSlice` nodes and
re-run the convolution-family shape inference on the replacement node; those
collaborators live outside this repository and are modelled from the spec.
-/

/-- Modelled from the spec: the output shape of the generic explicit-padding
node (`ov::op::v1::Pad`, CONSTANT mode) — each dimension grows by its
begin and end padding. -/
def padOutputShape (data pads_begin pads_end : List Int) : List Int :=
  (List.range data.length).map fun i =>
    data.getD i 0 + pads_begin.getD i 0 + pads_end.getD i 0

/-- Modelled from the spec: one output extent of the standard forward
convolution shape inference — floor((L + Pb + Pe - D*(F-1) - 1) / S) + 1.
All uses in this development have non-negative operands, where the division
convention does not matter. -/
def convForwardDim (l f s d pb pe : Int) : Int :=
  (l + pb + pe - d * (f - 1) - 1) / s + 1

/-- Modelled from the spec: the spatial output shape of the standard forward
convolution (`ov::op::v1::Convolution` and the grouped variant) on static
spatial extents. -/
def convForwardSpatial (L F st di pb pe : List Int) : List Int :=
  (List.range L.length).map fun i =>
    convForwardDim (L.getD i 0) (F.getD i 0) (st.getD i 0) (di.getD i 0)
      (pb.getD i 0) (pe.getD i 0)

/-- Clamp a slice bound into `[0, dim]`, with Python-style negative indexing
(a negative bound counts from the end). -/
def clampIdx (dim v : Int) : Int :=
  if v < 0 then max 0 (dim + v) else min v dim

/-- Modelled from the spec: one output extent of the
strided-slice-with-masks collaborator (`ov::op::v1::StridedSlice`, no
new-axis/shrink masks) — a set begin/end mask bit makes the axis pass
through from its start/to its end; bounds are clamped into the dimension;
stride 1 (the only stride the rewrite constructs) selects `ub - lb`
elements, a larger positive stride the ceiling of their quotient. -/
def sliceDim (dim b e s mb me : Int) : Int :=
  let lb := if mb = 1 then 0 else clampIdx dim b
  let ub := if me = 1 then dim else clampIdx dim e
  let len := max 0 (ub - lb)
  if s = 1 then len else if 0 < s then (len + s - 1) / s else 0

/-- Modelled from the spec: the static output shape of the
strided-slice-with-masks collaborator; axes beyond the slice vectors pass
through unchanged. -/
def stridedSliceShape (dims begins ends strides bm em : List Int) : List Int :=
  (List.range dims.length).map fun i =>
    if i < begins.length then
      sliceDim (dims.getD i 0) (begins.getD i 0) (ends.getD i 0)
        (strides.getD i 1) (bm.getD i 0) (em.getD i 0)
    else dims.getD i 0

/-!
## The forward rewrite callback

`convolution_with_padding<TBaseConvolution>`
(`convolution_asym_padding_transformation.cpp` lines 26-73), matching
`ov::op::v1::Convolution` (`grouped := false`) or
`ov::op::v1::GroupConvolution` (`grouped := true`).
-/

/-- What the forward callback needs of the matched node. -/
structure ForwardConvMatch where
  grouped : Bool
  numInputs : Nat
  pads_begin : List Int
  pads_end : List Int
deriving DecidableEq

/-- `add_two_zero_pads` (source lines 18-24): prepend two zero entries
(batch and channel) to a per-spatial-dimension padding sequence. -/
def add_two_zero_pads (pad : List Int) : List Int := 0 :: 0 :: pad

/-- The replacement subgraph a successful forward rewrite constructs
(source lines 48-70): the explicit Pad node's extended pads and constant
fill value, and the replacement convolution's pads and auto-pad mode. -/
structure ForwardRewriteOut where
  padsBeginExtended : List Int
  padsEndExtended : List Int
  padFillValue : Int
  convPadsBegin : List Int
  convPadsEnd : List Int
  convAutoPad : PadType
  convGrouped : Bool
deriving DecidableEq

/-- `convolution_with_padding` (source lines 26-73): decline the match
(`.ok none`) unless the node has exactly two inputs and the batch/channel
zero-extended pads differ; `Expects` the two pad vectors have equal length;
otherwise build the Pad node (extended pads, zero fill, CONSTANT mode) and
the replacement convolution of the same kind with all-zero pads and
auto-pad EXPLICIT, and substitute it. -/
def convolution_with_padding (m : ForwardConvMatch) :
    Except String (Option ForwardRewriteOut) :=
  if m.numInputs ≠ 2 then .ok none
  else
    let pads_begin := add_two_zero_pads m.pads_begin
    let pads_end := add_two_zero_pads m.pads_end
    if pads_begin = pads_end then .ok none
    else if pads_begin.length ≠ pads_end.length then
      .error "Expects failed: pads_begin.size() == pads_end.size()"
    else
      let zero_pads := List.replicate m.pads_begin.length (0 : Int)
      .ok (some { padsBeginExtended := pads_begin, padsEndExtended := pads_end,
                  padFillValue := 0, convPadsBegin := zero_pads,
                  convPadsEnd := zero_pads, convAutoPad := .explicitP,
                  convGrouped := m.grouped })

/-!
## The backprop rewrite callback

`convolution_backprop_data_with_padding<TBaseConvolution>`
(`convolution_asym_padding_transformation.cpp` lines 76-212), matching
`ov::op::v1::ConvolutionBackpropData` (`generalK`),
`ov::op::v1::GroupConvolutionBackpropData` (`groupedK`) or
`CUDAPlugin::nodes::FusedConvBackpropData` (`fusedK`).
-/

inductive ConvKind where
  | generalK : ConvKind
  | groupedK : ConvKind
  | fusedK : ConvKind
deriving DecidableEq

/-- What the backprop callback reads of the matched node: its kind, input
count and attributes; the partial shapes and element types of the data and
filter sources; the constant folded from input 2 (feeding the kind-specific
output-shape query); the `add` input's shape and type (fused kind only); the
shape of output 0 of the data input's producing node (read by
`data.get_node()->output(0).get_shape()`, line 99); and the node's own
current output-0 partial shape (read by `convolution->output(0)`,
lines 111 and 170). -/
structure BackpropMatch where
  kind : ConvKind
  numInputs : Nat
  dataShape : PShape
  dataType : ElemType
  filtersShape : PShape
  filtersType : ElemType
  input2Const : Option (List Int)
  strides : List Int
  pads_begin : List Int
  pads_end : List Int
  dilations : List Int
  output_padding : List Int
  auto_pad : PadType
  addShape : List Int
  addType : ElemType
  dataProducerOut0 : PShape
  nodeOutputShape : PShape
deriving DecidableEq

/-- Source lines 102-120: run the kind-specific output-shape query (the
grouped query for the grouped kind, the general query otherwise — all three
share the body `backpropShapeQueryCore`); when the result is dynamic fall
back to `convolution->output(0).get_shape()` (which throws on a dynamic
shape), return "did not rewrite" if even that is dynamic (a check that can
no longer fire after a successful `get_shape`), and strip the two
non-spatial dimensions; when the query result is static use it whole. -/
def cbdp_resolve_output_shape (b : BackpropMatch) :
    Except String (Option (List Int)) :=
  let q := backpropShapeQueryCore b.dataShape b.strides b.numInputs b.input2Const
  if q.isDynamic then
    match getShape b.nodeOutputShape with
    | .error e => .error e
    | .ok s =>
        if (PShape.ofStatic s).isDynamic then .ok none
        else .ok (some (s.drop 2))
  else .ok (some q.toShape)

/-- Source lines 122-124: `static_conv_output_shape_data[i] =
pads_begin[i] + static_conv_output_shape_data[i] + pads_end[i]` for every
`i < pads_begin.size()`.  The C++ loop indexes the vector unchecked; an
index past the end (undefined behaviour there) is modelled as an error. -/
def inflate (s pads_begin pads_end : List Int) : Except String (List Int) :=
  if pads_begin.length ≤ s.length then
    .ok ((List.range s.length).map fun i =>
      if i < pads_begin.length then
        pads_begin.getD i 0 + s.getD i 0 + pads_end.getD i 0
      else s.getD i 0)
  else .error "index out of range in output-shape inflation"

/-- How the replacement node was constructed (source lines 128-166): its
input count, the inflated output-shape constant fed to it (`none` would mean
no output-shape input), and the input position of the original node the
`add` input was taken from (fused kind only). -/
structure ReplacementDesc where
  numInputs : Nat
  shapeConstInput : Option (List Int)
  addIndex : Option Nat
deriving DecidableEq

/-- Source lines 128-168: construct the replacement node of the same kind
with the inflated shape as its explicit output-shape constant, zero pads
(`zero_pads(pads_begin.size(), 0)`), auto-pad EXPLICIT and the original
strides/dilations/output-padding, and run its shape inference
(the constructor validates, and line 168 validates again).  For the fused
kind both branches call the 4-input constructor
`(data, filters, outputShape, add, ...)`, taking `add` from input 3 when
the matched node has four inputs and from input 2 when it has three; the
other kinds call the upstream 3-input `(data, filters, outputShape, ...)`
constructor (Modelled from the spec: upstream inference via
`convBackpropInferCore`). -/
def cbdp_replacement_infer (b : BackpropMatch) (inflated : List Int) :
    Except String (InferOut × ReplacementDesc) :=
  let zero_pads := List.replicate b.pads_begin.length (0 : Int)
  match b.kind with
  | .fusedK =>
      let rep : FusedConvBackpropData :=
        { numInputs := 4, dataShape := b.dataShape, dataType := b.dataType,
          filtersShape := b.filtersShape, filtersType := b.filtersType,
          input2Const := some inflated, strides := b.strides,
          pads_begin := zero_pads, pads_end := zero_pads,
          dilations := b.dilations, auto_pad := .explicitP,
          output_padding := b.output_padding,
          addShape := b.addShape, addType := b.addType }
      if b.numInputs = 4 then
        match rep.validate_and_infer_types with
        | .error e => .error e
        | .ok r => .ok (r, ⟨4, some inflated, some 3⟩)
      else
        match rep.validate_and_infer_types with
        | .error e => .error e
        | .ok r => .ok (r, ⟨4, some inflated, some 2⟩)
  | .generalK =>
      match convBackpropInferCore false 3 b.dataShape b.dataType b.filtersShape
          b.filtersType (some inflated) b.strides zero_pads zero_pads
          b.dilations b.output_padding .explicitP with
      | .error e => .error e
      | .ok r => .ok (r, ⟨3, some inflated, none⟩)
  | .groupedK =>
      match convBackpropInferCore true 3 b.dataShape b.dataType b.filtersShape
          b.filtersType (some inflated) b.strides zero_pads zero_pads
          b.dilations b.output_padding .explicitP with
      | .error e => .error e
      | .ok r => .ok (r, ⟨3, some inflated, none⟩)

/-- The strided-slice node a successful backprop rewrite constructs
(source lines 174-202). -/
structure BackpropSlice where
  begins : List Int
  ends : List Int
  strides : List Int
  beginMask : List Int
  endMask : List Int
  shape : List Int
deriving DecidableEq

/-- Source lines 174-202: begins = two zeros then `pads_begin[i]`; ends =
two zeros then `new_conv_shape[2+i] - pads_end[i]`; strides = all ones,
one per dimension of the data producer's output shape; begin/end masks =
two ones (batch and channel pass through) then zeros; and the slice node's
inferred output shape. -/
def cbdp_build_slice (input_shape new_conv_shape pads_begin pads_end : List Int) :
    BackpropSlice :=
  let begins := List.replicate 2 (0 : Int) ++ pads_begin
  let ends := List.replicate 2 (0 : Int)
    ++ ((List.range pads_end.length).map fun i =>
          new_conv_shape.getD (2 + i) 0 - pads_end.getD i 0)
  let ss := List.replicate input_shape.length (1 : Int)
  let bm := List.replicate 2 (1 : Int) ++ List.replicate pads_begin.length (0 : Int)
  let em := List.replicate 2 (1 : Int) ++ List.replicate pads_end.length (0 : Int)
  { begins := begins, ends := ends, strides := ss, beginMask := bm, endMask := em,
    shape := stridedSliceShape new_conv_shape begins ends ss bm em }

/-- The record of a successful backprop rewrite: the inflated output shape,
how the replacement was constructed, the original and replacement output
shapes, and the strided-slice node. -/
structure BackpropRewriteOut where
  inflated : List Int
  replacement : ReplacementDesc
  oldConvShape : List Int
  newConvShape : List Int
  slice : BackpropSlice
deriving DecidableEq

/-- `convolution_backprop_data_with_padding` (source lines 76-212):
decline the match when `pads_begin == pads_end`; `Expects` equal pad vector
lengths; read the data producer's output-0 static shape (line 99, throws on
dynamic); resolve the unpadded output spatial shape (lines 102-120); inflate
it by `pads_begin[i] + pads_end[i]` (lines 122-124); construct the
replacement and run its inference (lines 128-168); read the original and
replacement static output shapes (lines 170-171) and `Expects` they differ
(line 172); build the strided slice (lines 174-202); substitute it and
`Expects` its shape equals the original's (lines 208-209). -/
def convolution_backprop_data_with_padding (b : BackpropMatch) :
    Except String (Option BackpropRewriteOut) :=
  if b.pads_begin = b.pads_end then .ok none
  else if b.pads_begin.length ≠ b.pads_end.length then
    .error "Expects failed: pads_begin.size() == pads_end.size()"
  else
    match getShape b.dataProducerOut0 with
    | .error e => .error e
    | .ok input_shape =>
      match cbdp_resolve_output_shape b with
      | .error e => .error e
      | .ok none => .ok none
      | .ok (some static_conv) =>
        match inflate static_conv b.pads_begin b.pads_end with
        | .error e => .error e
        | .ok inflated =>
          match cbdp_replacement_infer b inflated with
          | .error e => .error e
          | .ok (rep, desc) =>
            match getShape b.nodeOutputShape with
            | .error e => .error e
            | .ok old_conv_shape =>
              match getShape rep.outShape with
              | .error e => .error e
              | .ok new_conv_shape =>
                if old_conv_shape = new_conv_shape then
                  .error "Expects failed: old_conv_shape != new_conv_shape"
                else
                  let sl := cbdp_build_slice input_shape new_conv_shape
                    b.pads_begin b.pads_end
                  if old_conv_shape ≠ sl.shape then
                    .error "Expects failed: old_conv_shape == strided_slice_shape"
                  else
                    .ok (some { inflated := inflated, replacement := desc,
                                oldConvShape := old_conv_shape,
                                newConvShape := new_conv_shape, slice := sl })

/-!
## Proof toolkit: pointwise facts about the list computations
-/

theorem getD_map_some (l : List Int) (i : Nat) (h : i < l.length) :
    (l.map some).getD i none = some (l.getD i 0) := by
  rw [List.getD_eq_getElem _ _ (by simpa using h), List.getD_eq_getElem _ _ h]
  simp

theorem getD_drop {α : Type} (l : List α) (k i : Nat) (d : α) :
    (l.drop k).getD i d = l.getD (k + i) d := by
  simp [List.getD_eq_getElem?_getD, List.getElem?_drop]

theorem getD_replicate {α : Type} (n i : Nat) (x d : α) (h : i < n) :
    (List.replicate n x).getD i d = x := by
  rw [List.getD_eq_getElem _ _ (by simpa using h)]
  simp

/-- Two integer lists of equal length that differ, differ at some index. -/
theorem exists_getD_ne (p q : List Int) (hlen : p.length = q.length) (h : p ≠ q) :
    ∃ i, i < p.length ∧ p.getD i 0 ≠ q.getD i 0 := by
  by_contra hc
  push_neg at hc
  exact h (List.ext_getElem hlen (fun i h1 h2 => by
    have := hc i h1
    rwa [List.getD_eq_getElem _ _ h1, List.getD_eq_getElem _ _ h2] at this))

/-- A pass-through axis of the modelled strided slice: both mask bits set,
stride one, a non-negative extent survives unchanged. -/
theorem sliceDim_pass (d b e : Int) (hd : 0 ≤ d) : sliceDim d b e 1 1 1 = d := by
  simp only [sliceDim, clampIdx]
  simp [max_def]
  omega

/-- A spatial axis of the modelled strided slice: an extent inflated to
`t + p + q` sliced from `p` to `(t + p + q) - q` with unit stride yields
`t`, for non-negative `t`, `p`, `q`. -/
theorem sliceDim_spatial (t p q : Int) (ht : 0 ≤ t) (hp : 0 ≤ p) (hq : 0 ≤ q) :
    sliceDim (t + p + q) p (t + p + q - q) 1 0 0 = t := by
  simp only [sliceDim, clampIdx, min_def, max_def]
  split_ifs <;> omega

/-- `backpropSpatialDims` on fully static inputs is the static formula,
dimension by dimension. -/
theorem backpropSpatialDims_static (dsSp fsSp : List Int)
    (st di pb pe op : List Int) (hf : fsSp.length = dsSp.length) :
    backpropSpatialDims (dsSp.map some) (fsSp.map some) st di pb pe op
      = ((List.range dsSp.length).map fun i =>
          st.getD i 0 * (dsSp.getD i 0 - 1) + di.getD i 0 * (fsSp.getD i 0 - 1) + 1
          - pb.getD i 0 - pe.getD i 0 + op.getD i 0).map some := by
  unfold backpropSpatialDims
  rw [List.map_map, List.length_map]
  refine List.map_congr_left (fun i hi => ?_)
  rw [List.mem_range] at hi
  rw [getD_map_some _ _ hi, getD_map_some _ _ (by omega)]
  rfl

theorem rankStatic_ofStatic (s : List Int) : (PShape.ofStatic s).rankStatic = true := rfl

theorem rankLen_ofStatic (s : List Int) : (PShape.ofStatic s).rankLen = s.length := by
  simp [PShape.ofStatic, PShape.rankLen, PShape.dims]

theorem dims_ofStatic (s : List Int) : (PShape.ofStatic s).dims = s.map some := rfl

/-- Evaluation of the inference core in the with-output-shape branch: three
inputs, a static requested shape of the right spatial rank, static data and
filters, auto-pad EXPLICIT — the output is the requested spatial shape with
the filter output-channel count and the batch size prepended, and the pads
are passed through. -/
theorem coreInfer_present (grouped : Bool) (ds fs v st pb0 pe0 di op : List Int)
    (dt ft rt : ElemType) (n : Nat)
    (hmerge : ElemType.merge dt ft = some rt)
    (hds : ds.length = 2 + n) (hst : st.length = n) (hdi : di.length = n)
    (hop : op.length = n) (hpb : pb0.length = n) (hpe : pe0.length = n)
    (hv : v.length = n) (hn : 0 < n) :
    convBackpropInferCore grouped 3 (.ofStatic ds) dt (.ofStatic fs) ft (some v)
      st pb0 pe0 di op .explicitP
      = .ok ⟨rt, .ofStatic (ds.getD 0 0
          :: (if grouped then fs.getD 0 0 * fs.getD 2 0 else fs.getD 1 0) :: v),
          pb0, pe0, st, di, op⟩ := by
  have hq : backpropShapeQueryCore (.ofStatic ds) st 3 (some v) = .ofStatic v := rfl
  have hn0 : ¬ (n = 0) := by omega
  simp only [convBackpropInferCore, hq, hmerge, rankStatic_ofStatic, rankLen_ofStatic,
    isStatic_ofStatic, toShape_ofStatic, Bool.and_self, if_true, hds, hst, hdi, hop,
    hpb, hpe, hv, Nat.add_sub_cancel_left, hn0, if_false, ne_eq, not_true_eq_false,
    not_false_eq_true, Bool.true_and]
  simp [hn0]

/-- Evaluation of the inference core in the deduce-from-data branch: four
inputs (so the output-shape input is taken as absent), static data and
filters, auto-pad EXPLICIT — the spatial output is deduced by the backprop
formula and the channel/batch dimensions are prepended; the requested
constant is ignored. -/
theorem coreInfer_deduce (ds fs : List Int) (i2c : Option (List Int))
    (st pb0 pe0 di op : List Int) (dt ft rt : ElemType) (n : Nat)
    (hmerge : ElemType.merge dt ft = some rt)
    (hds : ds.length = 2 + n) (hfs : fs.length = 2 + n)
    (hst : st.length = n) (hdi : di.length = n)
    (hop : op.length = n) (hpb : pb0.length = n) (hpe : pe0.length = n)
    (hn : 0 < n) :
    convBackpropInferCore false 4 (.ofStatic ds) dt (.ofStatic fs) ft i2c
      st pb0 pe0 di op .explicitP
      = .ok ⟨rt, .ofStatic (ds.getD 0 0 :: fs.getD 1 0 ::
          ((List.range n).map fun i =>
            st.getD i 0 * (ds.getD (2 + i) 0 - 1) + di.getD i 0 * (fs.getD (2 + i) 0 - 1)
            + 1 - pb0.getD i 0 - pe0.getD i 0 + op.getD i 0)),
          pb0, pe0, st, di, op⟩ := by
  have hn0 : ¬ (n = 0) := by omega
  have hinfer : infer_conv_backprop_output_spatial_shape
      ((List.map some ds).drop 2) ((List.map some fs).drop 2)
      st di pb0 pe0 op
      = .ok (((List.range n).map fun i =>
          st.getD i 0 * (ds.getD (2 + i) 0 - 1) + di.getD i 0 * (fs.getD (2 + i) 0 - 1)
          + 1 - pb0.getD i 0 - pe0.getD i 0 + op.getD i 0).map some) := by
    rw [← List.map_drop, ← List.map_drop]
    unfold infer_conv_backprop_output_spatial_shape
    have hcond : ((fs.drop 2).map some).length = ((ds.drop 2).map some).length ∧
        st.length = ((ds.drop 2).map some).length ∧
        di.length = ((ds.drop 2).map some).length ∧
        pb0.length = ((ds.drop 2).map some).length ∧
        pe0.length = ((ds.drop 2).map some).length ∧
        op.length = ((ds.drop 2).map some).length := by
      simp only [List.length_map, List.length_drop]
      omega
    rw [if_pos hcond]
    rw [backpropSpatialDims_static (ds.drop 2) (fs.drop 2) st di pb0 pe0 op
      (by simp only [List.length_drop]; omega)]
    have hlen2 : (ds.drop 2).length = n := by simp only [List.length_drop]; omega
    rw [hlen2]
    refine congrArg _ (congrArg _ (List.map_congr_left (fun i hi => ?_)))
    rw [List.mem_range] at hi
    rw [getD_drop, getD_drop]
  have hq : (4 == 3) = false := rfl
  have h0 : (List.map some ds).getD 0 none = some (ds.getD 0 0) :=
    getD_map_some ds 0 (by omega)
  simp only [convBackpropInferCore, hq, hmerge, rankStatic_ofStatic, rankLen_ofStatic,
    isStatic_ofStatic, toShape_ofStatic, dims_ofStatic, hds, hst, hdi, hop, hpb, hpe,
    Nat.add_sub_cancel_left]
  simp [hinfer, h0, hn0, hst, hdi, hop, PShape.ofStatic]
  rw [List.getElem?_eq_getElem (show 0 < ds.length by omega)]
  rfl

/-- Filter output-channel count of a backprop node kind: `filters[1]` for
the general and fused kinds, `filters[0] * filters[2]` for the grouped
kind. -/
def outChannelsOf (kind : ConvKind) (fs : List Int) : Int :=
  if kind = .groupedK then fs.getD 0 0 * fs.getD 2 0 else fs.getD 1 0

/-- A backprop-family match on which the rewrite is expected to succeed:
static data, filter and output shapes consistent with the node's own shape
inference, asymmetric non-negative pads, attribute vectors sized to the
spatial rank.  `target` is the unpadded output spatial shape the callback
resolves; the last component ties the fused kind's deduced spatial shape
(zero pads) to `target + pads_begin + pads_end`, which is exactly what the
fused inference produces for a consistently-shaped matched node. -/
def goodMatch (b : BackpropMatch) (ds fs target : List Int) (rt : ElemType) : Prop :=
  b.dataShape = PShape.ofStatic ds ∧
  b.filtersShape = PShape.ofStatic fs ∧
  b.dataProducerOut0 = PShape.ofStatic ds ∧
  b.nodeOutputShape = PShape.ofStatic (ds.getD 0 0 :: outChannelsOf b.kind fs :: target) ∧
  ds.length = 2 + b.pads_begin.length ∧
  fs.length = (if b.kind = .groupedK then 3 else 2) + b.pads_begin.length ∧
  target.length = b.pads_begin.length ∧
  b.pads_end.length = b.pads_begin.length ∧
  b.strides.length = b.pads_begin.length ∧
  b.dilations.length = b.pads_begin.length ∧
  b.output_padding.length = b.pads_begin.length ∧
  b.pads_begin ≠ b.pads_end ∧
  (∀ i, i < b.pads_begin.length →
    0 ≤ b.pads_begin.getD i 0 ∧ 0 ≤ b.pads_end.getD i 0 ∧ 0 ≤ target.getD i 0) ∧
  0 ≤ ds.getD 0 0 ∧
  0 ≤ outChannelsOf b.kind fs ∧
  ElemType.merge b.dataType b.filtersType = some rt ∧
  (b.kind = .fusedK → rt = b.addType) ∧
  (backpropShapeQueryCore b.dataShape b.strides b.numInputs b.input2Const
      = PShape.ofStatic target ∨
    (backpropShapeQueryCore b.dataShape b.strides b.numInputs b.input2Const).isDynamic
      = true) ∧
  (b.kind = .fusedK → ∀ i, i < b.pads_begin.length →
    b.strides.getD i 0 * (ds.getD (2 + i) 0 - 1)
      + b.dilations.getD i 0 * (fs.getD (2 + i) 0 - 1) + 1 + b.output_padding.getD i 0
      = target.getD i 0 + b.pads_begin.getD i 0 + b.pads_end.getD i 0)

/-- The slice the backprop rewrite builds recovers the original shape: on a
replacement shape `d0 :: C :: newSp` with `newSp = target + pads_begin +
pads_end` pointwise and non-negative pads and target, the strided slice's
inferred shape is `d0 :: C :: target`. -/
theorem cbdp_build_slice_shape (ds newSp target pb pe : List Int) (d0 C : Int)
    (hlpe : pe.length = pb.length) (hltg : target.length = pb.length)
    (hlnewSp : newSp.length = pb.length) (hlds : ds.length = 2 + pb.length)
    (hd0 : 0 ≤ d0) (hC : 0 ≤ C)
    (hnn : ∀ i, i < pb.length → 0 ≤ pb.getD i 0 ∧ 0 ≤ pe.getD i 0 ∧ 0 ≤ target.getD i 0)
    (hnewD : ∀ i, i < pb.length →
      newSp.getD i 0 = target.getD i 0 + pb.getD i 0 + pe.getD i 0) :
    (cbdp_build_slice ds (d0 :: C :: newSp) pb pe).shape = d0 :: C :: target := by
  simp only [cbdp_build_slice, stridedSliceShape]
  refine List.ext_getElem ?_ (fun i h1 h2 => ?_)
  · simp [hlnewSp, hltg]
  · simp only [List.length_map, List.length_range, List.length_cons] at h1
    rw [List.getElem_map, List.getElem_range]
    rw [if_pos (by
      simp only [List.length_append, List.length_replicate]
      omega)]
    rcases i with _ | i
    · rw [getD_replicate _ _ _ _ (show 0 < ds.length by omega)]
      show sliceDim d0 0 0 1 1 1 = _
      rw [sliceDim_pass _ _ _ hd0]
      rfl
    rcases i with _ | j
    · rw [getD_replicate _ _ _ _ (show 1 < ds.length by omega)]
      show sliceDim C 0 0 1 1 1 = _
      rw [sliceDim_pass _ _ _ hC]
      rfl
    · have hj : j < pb.length := by omega
      show sliceDim (newSp.getD j 0) (pb.getD j 0)
        (((List.range pe.length).map fun i =>
            (d0 :: C :: newSp).getD (2 + i) 0 - pe.getD i 0).getD j 0)
        ((List.replicate ds.length (1 : Int)).getD (j + 2) 1)
        ((List.replicate pb.length (0 : Int)).getD j 0)
        ((List.replicate pe.length (0 : Int)).getD j 0) = (d0 :: C :: target)[j + 2]
      rw [getD_replicate _ _ _ _ (show j + 2 < ds.length by omega),
        getD_replicate _ _ _ _ hj, getD_replicate _ _ _ _ (show j < pe.length by omega),
        rangeMap_getD _ _ _ _ (show j < pe.length by omega)]
      have hdim : (d0 :: C :: newSp).getD (2 + j) 0 = newSp.getD j 0 := by
        rw [Nat.add_comm 2 j]; rfl
      rw [hdim, hnewD j hj]
      rw [sliceDim_spatial (target.getD j 0) (pb.getD j 0) (pe.getD j 0)
        (hnn j hj).2.2 (hnn j hj).1 (hnn j hj).2.1]
      rw [List.getElem_cons_succ, List.getElem_cons_succ,
        List.getD_eq_getElem _ _ (by omega)]

/-- The master run lemma: on a `goodMatch`, the backprop callback rewrites,
and the constructed subgraph is fully characterized — the target spatial
shape is inflated by `pads_begin[i] + pads_end[i]`, the replacement is fed
the inflated shape as an explicit constant, its inferred shape prepends the
original batch and channel extents to the inflated spatial shape and
differs from the original shape, and the strided slice (begins two zeros
then `pads_begin`, ends two zeros then `new[2+i] - pads_end[i]`, unit
strides, batch/channel mask bits set) recovers exactly the original output
shape. -/
theorem backprop_rewrite_run (b : BackpropMatch) (ds fs target : List Int)
    (rt : ElemType) (h : goodMatch b ds fs target rt) :
    ∃ r : BackpropRewriteOut,
      convolution_backprop_data_with_padding b = .ok (some r) ∧
      r.oldConvShape = ds.getD 0 0 :: outChannelsOf b.kind fs :: target ∧
      r.inflated.length = b.pads_begin.length ∧
      (∀ i, i < b.pads_begin.length →
        r.inflated.getD i 0
          = b.pads_begin.getD i 0 + target.getD i 0 + b.pads_end.getD i 0) ∧
      r.replacement.numInputs = (if b.kind = .fusedK then 4 else 3) ∧
      r.replacement.shapeConstInput = some r.inflated ∧
      r.replacement.addIndex
        = (if b.kind = .fusedK then some (if b.numInputs = 4 then 3 else 2) else none) ∧
      r.newConvShape.length = 2 + b.pads_begin.length ∧
      r.newConvShape.getD 0 0 = ds.getD 0 0 ∧
      r.newConvShape.getD 1 0 = outChannelsOf b.kind fs ∧
      (∀ i, i < b.pads_begin.length →
        r.newConvShape.getD (2 + i) 0
          = target.getD i 0 + b.pads_begin.getD i 0 + b.pads_end.getD i 0) ∧
      r.newConvShape ≠ r.oldConvShape ∧
      r.slice.begins = 0 :: 0 :: b.pads_begin ∧
      r.slice.ends.length = 2 + b.pads_begin.length ∧
      r.slice.ends.getD 0 0 = 0 ∧ r.slice.ends.getD 1 0 = 0 ∧
      (∀ i, i < b.pads_begin.length →
        r.slice.ends.getD (2 + i) 0
          = r.newConvShape.getD (2 + i) 0 - b.pads_end.getD i 0) ∧
      r.slice.strides = List.replicate (2 + b.pads_begin.length) 1 ∧
      r.slice.beginMask = 1 :: 1 :: List.replicate b.pads_begin.length 0 ∧
      r.slice.endMask = 1 :: 1 :: List.replicate b.pads_end.length 0 ∧
      r.slice.shape = r.oldConvShape := by
  obtain ⟨hds, hfs, hdp, hold, hldsn, hlfsn, hltg, hlpe, hlst, hldi, hlop, hne,
    hnn, hd0, hC, hmerge, haddT, hquery, hded⟩ := h
  have hnpos : 0 < b.pads_begin.length := by
    by_contra hcl
    push_neg at hcl
    have h1 : b.pads_begin = [] := List.eq_nil_of_length_eq_zero (by omega)
    have h2 : b.pads_end = [] := List.eq_nil_of_length_eq_zero (by omega)
    exact hne (h1.trans h2.symm)
  -- Stage 1 (lines 102-120): the resolved unpadded output spatial shape.
  have hres : cbdp_resolve_output_shape b = .ok (some target) := by
    rcases hquery with hq | hq
    · simp only [cbdp_resolve_output_shape, hq, isDynamic_ofStatic, toShape_ofStatic,
        Bool.false_eq_true, if_false]
    · simp only [cbdp_resolve_output_shape, hq, if_true, hold, getShape_ofStatic,
        isDynamic_ofStatic, Bool.false_eq_true, if_false]
      rfl
  -- Stage 2 (lines 122-124): the inflated shape.
  have hinf : inflate target b.pads_begin b.pads_end
      = .ok ((List.range target.length).map fun i =>
          if i < b.pads_begin.length then
            b.pads_begin.getD i 0 + target.getD i 0 + b.pads_end.getD i 0
          else target.getD i 0) := by
    unfold inflate
    rw [if_pos (by omega)]
  set inflL := ((List.range target.length).map fun i =>
    if i < b.pads_begin.length then
      b.pads_begin.getD i 0 + target.getD i 0 + b.pads_end.getD i 0
    else target.getD i 0) with hinflL
  have hlinf : inflL.length = b.pads_begin.length := by
    rw [hinflL, rangeMap_length]; omega
  have hinfD : ∀ i, i < b.pads_begin.length →
      inflL.getD i 0 = b.pads_begin.getD i 0 + target.getD i 0 + b.pads_end.getD i 0 := by
    intro i hi
    rw [hinflL, rangeMap_getD _ _ _ _ (by omega), if_pos hi]
  -- Stage 3 (lines 128-168): the replacement node and its inferred shape.
  have hrep : ∃ rep newSp, cbdp_replacement_infer b inflL
        = .ok (rep, ⟨(if b.kind = .fusedK then 4 else 3), some inflL,
            (if b.kind = .fusedK then some (if b.numInputs = 4 then 3 else 2) else none)⟩) ∧
      rep.outShape = PShape.ofStatic (ds.getD 0 0 :: outChannelsOf b.kind fs :: newSp) ∧
      newSp.length = b.pads_begin.length ∧
      (∀ i, i < b.pads_begin.length →
        newSp.getD i 0
          = target.getD i 0 + b.pads_begin.getD i 0 + b.pads_end.getD i 0) := by
    have hinfD2 : ∀ i, i < b.pads_begin.length →
        inflL.getD i 0
          = target.getD i 0 + b.pads_begin.getD i 0 + b.pads_end.getD i 0 := by
      intro i hi
      have := hinfD i hi
      omega
    cases hk : b.kind with
    | generalK =>
        refine ⟨⟨rt, .ofStatic (ds.getD 0 0 :: fs.getD 1 0 :: inflL),
          List.replicate b.pads_begin.length 0, List.replicate b.pads_begin.length 0,
          b.strides, b.dilations, b.output_padding⟩, inflL, ?_, ?_, hlinf, hinfD2⟩
        · simp only [cbdp_replacement_infer, hk, hds, hfs]
          rw [coreInfer_present false ds fs inflL b.strides
            (List.replicate b.pads_begin.length 0) (List.replicate b.pads_begin.length 0)
            b.dilations b.output_padding b.dataType b.filtersType rt
            b.pads_begin.length hmerge hldsn hlst hldi hlop (by simp) (by simp)
            hlinf hnpos]
          simp
        · simp [outChannelsOf]
    | groupedK =>
        refine ⟨⟨rt, .ofStatic (ds.getD 0 0 :: fs.getD 0 0 * fs.getD 2 0 :: inflL),
          List.replicate b.pads_begin.length 0, List.replicate b.pads_begin.length 0,
          b.strides, b.dilations, b.output_padding⟩, inflL, ?_, ?_, hlinf, hinfD2⟩
        · simp only [cbdp_replacement_infer, hk, hds, hfs]
          rw [coreInfer_present true ds fs inflL b.strides
            (List.replicate b.pads_begin.length 0) (List.replicate b.pads_begin.length 0)
            b.dilations b.output_padding b.dataType b.filtersType rt
            b.pads_begin.length hmerge hldsn hlst hldi hlop (by simp) (by simp)
            hlinf hnpos]
          simp
        · simp [outChannelsOf]
    | fusedK =>
        have hcore := coreInfer_deduce ds fs (some inflL) b.strides
          (List.replicate b.pads_begin.length 0) (List.replicate b.pads_begin.length 0)
          b.dilations b.output_padding b.dataType b.filtersType rt
          b.pads_begin.length hmerge hldsn (by simpa [hk] using hlfsn) hlst hldi hlop
          (by simp) (by simp) hnpos
        refine ⟨⟨rt, .ofStatic (ds.getD 0 0 :: fs.getD 1 0 ::
            ((List.range b.pads_begin.length).map fun i =>
              b.strides.getD i 0 * (ds.getD (2 + i) 0 - 1)
              + b.dilations.getD i 0 * (fs.getD (2 + i) 0 - 1) + 1
              - (List.replicate b.pads_begin.length (0 : Int)).getD i 0
              - (List.replicate b.pads_begin.length (0 : Int)).getD i 0
              + b.output_padding.getD i 0)),
          List.replicate b.pads_begin.length 0, List.replicate b.pads_begin.length 0,
          b.strides, b.dilations, b.output_padding⟩,
          ((List.range b.pads_begin.length).map fun i =>
            b.strides.getD i 0 * (ds.getD (2 + i) 0 - 1)
            + b.dilations.getD i 0 * (fs.getD (2 + i) 0 - 1) + 1
            - (List.replicate b.pads_begin.length (0 : Int)).getD i 0
            - (List.replicate b.pads_begin.length (0 : Int)).getD i 0
            + b.output_padding.getD i 0), ?_, ?_, ?_, ?_⟩
        · simp only [cbdp_replacement_infer, hk,
            FusedConvBackpropData.validate_and_infer_types,
            FusedConvBackpropData.conv_validate_and_infer_types, hds, hfs]
          rw [hcore]
          by_cases hni : b.numInputs = 4 <;>
            simp [hni, haddT hk]
        · simp [outChannelsOf]
        · rw [rangeMap_length]
        · intro i hi
          rw [rangeMap_getD _ _ _ _ hi, getD_replicate _ _ _ _ hi]
          have := hded hk i hi
          omega
  obtain ⟨rep, newSp, hrepEq, hrepShape, hlnewSp, hnewD⟩ := hrep
  set newFull := ds.getD 0 0 :: outChannelsOf b.kind fs :: newSp with hnewFull
  set oldL := ds.getD 0 0 :: outChannelsOf b.kind fs :: target with holdL
  -- Lines 170-172: old and new static shapes, and the difference assertion.
  have hdiff : ¬ (oldL = newFull) := by
    intro heq
    rw [holdL, hnewFull, List.cons.injEq, List.cons.injEq] at heq
    obtain ⟨i, hi, hnei⟩ := exists_getD_ne b.pads_begin b.pads_end (by omega) hne
    have h1 := hnewD i hi
    rw [← heq.2.2] at h1
    have h2 := hnn i hi
    omega
  -- Lines 174-209: the strided slice recovers the original shape.
  have hsliceShape : (cbdp_build_slice ds newFull b.pads_begin b.pads_end).shape = oldL := by
    rw [hnewFull, holdL]
    exact cbdp_build_slice_shape ds newSp target b.pads_begin b.pads_end
      (ds.getD 0 0) (outChannelsOf b.kind fs) (by omega) hltg hlnewSp hldsn
      hd0 hC hnn hnewD
  -- Assemble the run.
  refine ⟨⟨inflL, ⟨(if b.kind = .fusedK then 4 else 3), some inflL,
      (if b.kind = .fusedK then some (if b.numInputs = 4 then 3 else 2) else none)⟩,
      oldL, newFull, cbdp_build_slice ds newFull b.pads_begin b.pads_end⟩,
    ?_, holdL, hlinf, hinfD, rfl, rfl, rfl, ?_, ?_, ?_, ?_, ?_, ?_, ?_, ?_, ?_, ?_, ?_, ?_, ?_,
    hsliceShape.trans rfl⟩
  · unfold convolution_backprop_data_with_padding
    rw [if_neg hne, if_neg (by omega)]
    simp only [hdp, getShape_ofStatic, hres, hinf, hrepEq, hold, hrepShape]
    rw [if_neg (fun hcc => hdiff hcc)]
    rw [if_neg (fun hcc => hcc hsliceShape.symm)]
  · -- newConvShape.length
    rw [hnewFull]
    simp only [List.length_cons]
    omega
  · rw [hnewFull]; rfl
  · rw [hnewFull]; rfl
  · -- pointwise newConvShape
    intro i hi
    rw [hnewFull]
    have : (ds.getD 0 0 :: outChannelsOf b.kind fs :: newSp).getD (2 + i) 0
        = newSp.getD i 0 := by rw [Nat.add_comm 2 i]; rfl
    rw [this, hnewD i hi]
  · -- newConvShape differs from oldConvShape
    exact fun hcc => hdiff (hcc.symm)
  · -- slice begins
    show List.replicate 2 (0 : Int) ++ b.pads_begin = 0 :: 0 :: b.pads_begin
    rfl
  · -- slice ends length
    show (List.replicate 2 (0 : Int)
      ++ ((List.range b.pads_end.length).map fun i =>
            newFull.getD (2 + i) 0 - b.pads_end.getD i 0)).length = 2 + b.pads_begin.length
    simp only [List.length_append, List.length_replicate, List.length_map, List.length_range]
    omega
  · show (0 : Int) = 0
    rfl
  · show (0 : Int) = 0
    rfl
  · -- pointwise slice ends
    intro i hi
    show (List.replicate 2 (0 : Int)
      ++ ((List.range b.pads_end.length).map fun i =>
            newFull.getD (2 + i) 0 - b.pads_end.getD i 0)).getD (2 + i) 0
      = newFull.getD (2 + i) 0 - b.pads_end.getD i 0
    have h2 : (List.replicate 2 (0 : Int)
        ++ ((List.range b.pads_end.length).map fun i =>
              newFull.getD (2 + i) 0 - b.pads_end.getD i 0)).getD (2 + i) 0
        = ((List.range b.pads_end.length).map fun i =>
              newFull.getD (2 + i) 0 - b.pads_end.getD i 0).getD i 0 := by
      rw [Nat.add_comm 2 i]; rfl
    rw [h2, rangeMap_getD _ _ _ _ (by omega)]
  · -- slice strides
    show List.replicate ds.length (1 : Int) = List.replicate (2 + b.pads_begin.length) 1
    rw [hldsn]
  · -- begin mask
    show List.replicate 2 (1 : Int) ++ List.replicate b.pads_begin.length 0
      = 1 :: 1 :: List.replicate b.pads_begin.length 0
    rfl
  · -- end mask
    show List.replicate 2 (1 : Int) ++ List.replicate b.pads_end.length 0
      = 1 :: 1 :: List.replicate b.pads_end.length 0
    rfl

deriving instance DecidableEq for Except

/-!
## The claims
-/

/-- Claim C4: in `infer_conv_backprop_output_spatial_shape`, for every
spatial dimension whose input extent `L` and filter extent `F` are both
static, the computed output extent equals
`S*(L-1) + D*(F-1) + 1 - Pb - Pe + Op`; the dimension is dynamic whenever
`L` or `F` is unknown; and the call fails with a validation error whenever
the filter, stride, dilation, pads or output-padding sequence lengths do
not all equal the number of spatial dimensions. -/
theorem c4_backprop_spatial_formula :
    (∀ (L F : List (Option Int)) (st di pb pe op : List Int),
      (F.length = L.length ∧ st.length = L.length ∧ di.length = L.length ∧
       pb.length = L.length ∧ pe.length = L.length ∧ op.length = L.length) →
      ∃ out, infer_conv_backprop_output_spatial_shape L F st di pb pe op = .ok out ∧
        out.length = L.length ∧
        (∀ i, i < L.length →
          (∀ l f, L.getD i none = some l → F.getD i none = some f →
            out.getD i none = some (st.getD i 0 * (l - 1) + di.getD i 0 * (f - 1) + 1
              - pb.getD i 0 - pe.getD i 0 + op.getD i 0)) ∧
          ((L.getD i none = none ∨ F.getD i none = none) → out.getD i none = none))) ∧
    (∀ (L F : List (Option Int)) (st di pb pe op : List Int),
      ¬(F.length = L.length ∧ st.length = L.length ∧ di.length = L.length ∧
        pb.length = L.length ∧ pe.length = L.length ∧ op.length = L.length) →
      infer_conv_backprop_output_spatial_shape L F st di pb pe op
        = .error "Validation check failed: argument sequence lengths must all equal the number of spatial dimensions") := by
  constructor
  · intro L F st di pb pe op hlen
    refine ⟨_, by
      unfold infer_conv_backprop_output_spatial_shape
      rw [if_pos hlen], ?_, ?_⟩
    · exact rangeMap_length _ _
    · intro i hi
      constructor
      · intro l f hl hf
        rw [backpropSpatialDims, rangeMap_getD _ _ _ _ hi, hl, hf]
      · intro hd
        rw [backpropSpatialDims, rangeMap_getD _ _ _ _ hi]
        rcases hd with hd | hd <;> rw [hd] <;> cases L.getD i none <;> rfl
  · intro L F st di pb pe op hlen
    unfold infer_conv_backprop_output_spatial_shape
    rw [if_neg hlen]

/-- Witness for C4 at a concrete input: spatial rank 2 with one dynamic
input dimension. -/
theorem c4_backprop_spatial_formula_witness :
    ∃ out, infer_conv_backprop_output_spatial_shape
        [some 5, none] [some 2, some 3] [2, 2] [1, 1] [1, 0] [0, 1] [0, 0]
        = .ok out ∧
      out.length = 2 ∧
      (∀ i, i < 2 →
        (∀ l f, ([some (5 : Int), none]).getD i none = some l →
            ([some (2 : Int), some 3]).getD i none = some f →
          out.getD i none = some (([2, 2] : List Int).getD i 0 * (l - 1)
            + ([1, 1] : List Int).getD i 0 * (f - 1) + 1
            - ([1, 0] : List Int).getD i 0 - ([0, 1] : List Int).getD i 0
            + ([0, 0] : List Int).getD i 0)) ∧
        ((([some (5 : Int), none]).getD i none = none ∨
            ([some (2 : Int), some 3]).getD i none = none) →
          out.getD i none = none)) := by
  have h := c4_backprop_spatial_formula.1 [some 5, none] [some 2, some 3]
    [2, 2] [1, 1] [1, 0] [0, 1] [0, 0] (by decide)
  simpa using h

/-- Claim C5: a convolution-family node with symmetric padding
(elementwise equal pads, the extension by two zeros preserving equality for
the forward passes) is never rewritten: both callbacks report "no rewrite"
(`.ok none`), constructing, modifying and replacing nothing. -/
theorem c5_symmetric_padding_no_rewrite :
    (∀ m : ForwardConvMatch,
      add_two_zero_pads m.pads_begin = add_two_zero_pads m.pads_end →
      convolution_with_padding m = .ok none) ∧
    (∀ b : BackpropMatch, b.pads_begin = b.pads_end →
      convolution_backprop_data_with_padding b = .ok none) := by
  constructor
  · intro m hp
    unfold convolution_with_padding
    by_cases h2 : m.numInputs ≠ 2
    · rw [if_pos h2]
    · rw [if_neg h2, if_pos hp]
  · intro b hp
    unfold convolution_backprop_data_with_padding
    rw [if_pos hp]

/-- Witness for C5: a 2-input forward convolution with pads `[1,1]/[1,1]`
and a backprop node with pads `[2]/[2]` are both left alone. -/
theorem c5_symmetric_padding_no_rewrite_witness :
    convolution_with_padding
        { grouped := false, numInputs := 2, pads_begin := [1, 1], pads_end := [1, 1] }
      = .ok none ∧
    convolution_backprop_data_with_padding
        { kind := .generalK, numInputs := 3, dataShape := .ofStatic [1, 2, 5],
          dataType := .f32, filtersShape := .ofStatic [2, 3, 2], filtersType := .f32,
          input2Const := none, strides := [1], pads_begin := [2], pads_end := [2],
          dilations := [1], output_padding := [0], auto_pad := .explicitP,
          addShape := [], addType := .f32, dataProducerOut0 := .ofStatic [1, 2, 5],
          nodeOutputShape := .ofStatic [1, 3, 2] }
      = .ok none :=
  ⟨c5_symmetric_padding_no_rewrite.1 _ (by decide),
   c5_symmetric_padding_no_rewrite.2 _ (by decide)⟩

/-- The 2D forward scenario of the spec: input spatial `[10,10]`, filter
`[3,3]`, stride `[1,1]`, dilation `[1,1]`, `pads_begin = [1,0]`,
`pads_end = [0,1]`, a plain 2-input convolution. -/
def c3_scenario : ForwardConvMatch :=
  { grouped := false, numInputs := 2, pads_begin := [1, 0], pads_end := [0, 1] }

/-- Claim C3 (amended): the forward pass declines non-2-input nodes and
symmetric extended pads, and otherwise rewrites into an explicit Pad node
(extended pads, zero constant fill) feeding a same-kind convolution with
all-zero pads and auto-pad EXPLICIT; padding the data first and convolving
with zero pads gives the same spatial shape as convolving with the original
asymmetric pads — in the concrete scenario `[9,9]` (not `[10,10]`). -/
theorem c3_forward_rewrite :
    (∀ m : ForwardConvMatch, m.numInputs ≠ 2 → convolution_with_padding m = .ok none) ∧
    (∀ m : ForwardConvMatch,
      add_two_zero_pads m.pads_begin = add_two_zero_pads m.pads_end →
      convolution_with_padding m = .ok none) ∧
    (∀ (m : ForwardConvMatch) (r : ForwardRewriteOut),
      convolution_with_padding m = .ok (some r) →
      r = { padsBeginExtended := add_two_zero_pads m.pads_begin,
            padsEndExtended := add_two_zero_pads m.pads_end,
            padFillValue := 0,
            convPadsBegin := List.replicate m.pads_begin.length 0,
            convPadsEnd := List.replicate m.pads_begin.length 0,
            convAutoPad := .explicitP,
            convGrouped := m.grouped }) ∧
    (∀ (L F st di pb pe : List Int),
      convForwardSpatial (padOutputShape L pb pe) F st di
          (List.replicate pb.length 0) (List.replicate pb.length 0)
        = convForwardSpatial L F st di pb pe) ∧
    (convolution_with_padding c3_scenario
        = .ok (some { padsBeginExtended := [0, 0, 1, 0], padsEndExtended := [0, 0, 0, 1],
                      padFillValue := 0, convPadsBegin := [0, 0], convPadsEnd := [0, 0],
                      convAutoPad := .explicitP, convGrouped := false }) ∧
      convForwardSpatial [10, 10] [3, 3] [1, 1] [1, 1] [1, 0] [0, 1] = [9, 9] ∧
      convForwardSpatial (padOutputShape [10, 10] [1, 0] [0, 1]) [3, 3] [1, 1] [1, 1]
          [0, 0] [0, 0] = [9, 9]) := by
  refine ⟨?_, ?_, ?_, ?_, by decide, by decide, by decide⟩
  · intro m h2
    unfold convolution_with_padding
    rw [if_pos h2]
  · intro m hp
    unfold convolution_with_padding
    by_cases h2 : m.numInputs ≠ 2
    · rw [if_pos h2]
    · rw [if_neg h2, if_pos hp]
  · intro m r h
    unfold convolution_with_padding at h
    dsimp only at h
    split at h
    · exact absurd h (by simp)
    · split at h
      · exact absurd h (by simp)
      · split at h
        · exact absurd h (by simp)
        · simp only [Except.ok.injEq, Option.some.injEq] at h
          exact h.symm
  · intro L F st di pb pe
    unfold convForwardSpatial padOutputShape
    rw [rangeMap_length]
    refine List.map_congr_left (fun i hi => ?_)
    rw [List.mem_range] at hi
    rw [rangeMap_getD _ _ _ _ hi]
    unfold convForwardDim
    have hz : (List.replicate pb.length (0 : Int)).getD i 0 = 0 := by
      by_cases hip : i < pb.length
      · exact getD_replicate _ _ _ _ hip
      · rw [List.getD_eq_getElem?_getD, List.getElem?_eq_none (by simpa using hip)]
        rfl
    rw [hz]
    have harg : L.getD i 0 + pb.getD i 0 + pe.getD i 0 + 0 + 0 - di.getD i 0 * (F.getD i 0 - 1) - 1
        = L.getD i 0 + pb.getD i 0 + pe.getD i 0 - di.getD i 0 * (F.getD i 0 - 1) - 1 := by
      omega
    rw [harg]

/-- Witness for C3: the rewrite-record part applied at the concrete
scenario node. -/
theorem c3_forward_rewrite_witness :
    ({ padsBeginExtended := [0, 0, 1, 0], padsEndExtended := [0, 0, 0, 1],
       padFillValue := 0, convPadsBegin := [0, 0], convPadsEnd := [0, 0],
       convAutoPad := .explicitP, convGrouped := false } : ForwardRewriteOut)
      = { padsBeginExtended := add_two_zero_pads c3_scenario.pads_begin,
          padsEndExtended := add_two_zero_pads c3_scenario.pads_end,
          padFillValue := 0,
          convPadsBegin := List.replicate c3_scenario.pads_begin.length 0,
          convPadsEnd := List.replicate c3_scenario.pads_begin.length 0,
          convAutoPad := .explicitP,
          convGrouped := c3_scenario.grouped } :=
  c3_forward_rewrite.2.2.1 c3_scenario _ (by decide)

/-- Counterexample for C3 as stated: the original convolution's output
spatial shape in the concrete scenario is `[9,9]`, not the `[10,10]` the
claim asserts. -/
theorem c3_counterexample :
    convForwardSpatial [10, 10] [3, 3] [1, 1] [1, 1] [1, 0] [0, 1] = [9, 9] ∧
    ([9, 9] : List Int) ≠ [10, 10] := by decide

/-- A `FusedConvBackpropData` built with the 4-input construction form
`(data, filters, outputShape, add)`: static data `[1,2,5]`, filters
`[2,3,2]`, requested output spatial shape `[7]` (a constant), EXPLICIT
auto-pad, zero pads, unit strides and dilations. -/
def c1_node : FusedConvBackpropData :=
  { numInputs := 4, dataShape := .ofStatic [1, 2, 5], dataType := .f32,
    filtersShape := .ofStatic [2, 3, 2], filtersType := .f32,
    input2Const := some [7], strides := [1], pads_begin := [0], pads_end := [0],
    dilations := [1], auto_pad := .explicitP, output_padding := [0],
    addShape := [1, 3, 7], addType := .f32 }

/-- Claim C1 (code bug): a 4-input `FusedConvBackpropData` with a constant
output-shape input `[7]` and all shapes static does NOT get the requested
shape `[1,3,7]`: because `is_output_shape_present` tests `inputs().size()
== 3` (the input count of the form WITHOUT the output-shape input), the
node takes the deduce-from-data branch and infers `[1,3,6]`, ignoring its
output-shape constant.  The same test makes the 3-input form
`(data, filters, add)` read the `add` tensor as its output shape
(here: a non-constant `add` makes the whole output shape dynamic). -/
theorem c1_four_input_ignores_output_shape :
    (FusedConvBackpropData.validate_and_infer_types c1_node).map (fun r => r.outShape)
      = .ok (.ofStatic [1, 3, 6]) ∧
    PShape.ofStatic [1, 3, 6] ≠ PShape.ofStatic [1, 3, 7] ∧
    (FusedConvBackpropData.validate_and_infer_types
        { c1_node with numInputs := 3, input2Const := none }).map (fun r => r.outShape)
      = .ok .dyn := by decide

/-- A matched general `ConvolutionBackpropData` whose output-shape input is
not constant (query dynamic) and whose own output-0 shape is dynamic in the
spatial dimension, with static data `[1,2,5]` and asymmetric pads. -/
def c7_node : BackpropMatch :=
  { kind := .generalK, numInputs := 3, dataShape := .ofStatic [1, 2, 5],
    dataType := .f32, filtersShape := .ofStatic [2, 3, 2], filtersType := .f32,
    input2Const := none, strides := [2], pads_begin := [1], pads_end := [0],
    dilations := [1], output_padding := [0], auto_pad := .explicitP,
    addShape := [], addType := .f32, dataProducerOut0 := .ofStatic [1, 2, 5],
    nodeOutputShape := .ranked [some 1, some 3, none] }

/-- Claim C7 (code bug): when the kind-specific output-shape query is
dynamic the callback falls back to `convolution->output(0).get_shape()` —
but `get_shape` throws on a dynamic shape, so when even the node's own
output shape is dynamic the callback throws instead of returning "did not
rewrite"; the `return false` guard behind it can only see an
already-static shape (a successful `get_shape` result is never dynamic)
and is unreachable. -/
theorem c7_dynamic_fallback_throws :
    convolution_backprop_data_with_padding c7_node
      = .error "get_shape was called on a descriptor with dynamic shape" ∧
    cbdp_resolve_output_shape c7_node
      = .error "get_shape was called on a descriptor with dynamic shape" ∧
    getShape (PShape.ofStatic [1, 3, 6]) = .ok [1, 3, 6] ∧
    (PShape.ofStatic [1, 3, 6]).isDynamic = false := by decide

/-- A fused node whose data/filter element types merge to `f32` but whose
`add` input was captured with element type `f16`. -/
def c8_bad_node : FusedConvBackpropData :=
  { c1_node with addType := .f16 }

/-- A fused node whose captured `add` shape `[9,9,9]` disagrees with the
inferred output shape `[1,3,6]` while the element types agree. -/
def c8_shape_node : FusedConvBackpropData :=
  { c1_node with addShape := [9, 9, 9] }

/-- Claim C8: `validate_and_infer_types` fatally asserts that the inferred
output element type equals the captured `add` element type (so mismatched
construction fails), while the shape comparison is commented out: a node
whose `add` shape disagrees with the inferred output shape still validates
successfully. -/
theorem c8_add_type_assertion :
    (∀ (n : FusedConvBackpropData) (r : InferOut),
      n.validate_and_infer_types = .ok r → r.resultType = n.addType) ∧
    FusedConvBackpropData.validate_and_infer_types c8_bad_node
      = .error "Expects failed: element_type == add_type_" ∧
    ((FusedConvBackpropData.validate_and_infer_types c8_shape_node).map
        (fun r => r.outShape) = .ok (.ofStatic [1, 3, 6]) ∧
      c8_shape_node.addShape ≠ [1, 3, 6]) := by
  refine ⟨?_, by decide, by decide, by decide⟩
  intro n r h
  unfold FusedConvBackpropData.validate_and_infer_types at h
  split at h
  · exact absurd h (by simp)
  · split at h
    · simp only [Except.ok.injEq] at h
      subst h
      assumption
    · exact absurd h (by simp)

/-- Witness for C8: the element-type assertion read off a successfully
validated concrete node. -/
theorem c8_add_type_assertion_witness :
    ∃ r : InferOut, FusedConvBackpropData.validate_and_infer_types c1_node = .ok r ∧
      r.resultType = c1_node.addType := by
  refine ⟨⟨.f32, .ofStatic [1, 3, 6], [0], [0], [1], [1], [0]⟩, by decide, ?_⟩
  exact c8_add_type_assertion.1 c1_node _ (by decide)

/-- Claim C10: a backprop pass matching a node with asymmetric padding
whose data input's producing node has a dynamic output-0 shape does not
decline the match — reading that shape (`data.get_node()->output(0)
.get_shape()`, line 99) throws, before any replacement node is
constructed. -/
theorem c10_dynamic_input_shape_throws (b : BackpropMatch)
    (h1 : b.pads_begin ≠ b.pads_end)
    (h2 : b.pads_begin.length = b.pads_end.length)
    (h3 : b.dataProducerOut0.isDynamic = true) :
    convolution_backprop_data_with_padding b
      = .error "get_shape was called on a descriptor with dynamic shape" := by
  unfold convolution_backprop_data_with_padding
  rw [if_neg h1, if_neg (by omega), getShape_dynamic _ h3]

/-- Witness for C10: a fused match with pads `[1]/[0]` whose data producer
has a fully dynamic output shape. -/
theorem c10_dynamic_input_shape_throws_witness :
    convolution_backprop_data_with_padding
        { kind := .fusedK, numInputs := 4, dataShape := .dyn, dataType := .f32,
          filtersShape := .ofStatic [2, 3, 2], filtersType := .f32,
          input2Const := none, strides := [1], pads_begin := [1], pads_end := [0],
          dilations := [1], output_padding := [0], auto_pad := .explicitP,
          addShape := [1, 3, 5], addType := .f32, dataProducerOut0 := .dyn,
          nodeOutputShape := .dyn }
      = .error "get_shape was called on a descriptor with dynamic shape" :=
  c10_dynamic_input_shape_throws _ (by decide) (by decide) (by decide)

/-- Claim C2: in the backprop rewrite, the resolved target output shape is
inflated per spatial dimension by `pads_begin[i] + pads_end[i]`, and the
final StridedSlice extracts exactly the original shape — batch and channel
pass through (begin 0, mask bits 1), each spatial dimension is sliced from
`pads_begin[i]` to `inflated[i] - pads_end[i]` with unit stride, and the
slice's inferred output shape equals the matched node's original output
shape (the fatal assertion of lines 208-209 holds). -/
theorem c2_slice_extracts_original (b : BackpropMatch) (ds fs target : List Int)
    (rt : ElemType) (h : goodMatch b ds fs target rt) :
    ∃ r : BackpropRewriteOut,
      convolution_backprop_data_with_padding b = .ok (some r) ∧
      (∀ i, i < b.pads_begin.length →
        r.inflated.getD i 0
          = target.getD i 0 + b.pads_begin.getD i 0 + b.pads_end.getD i 0) ∧
      r.slice.begins = 0 :: 0 :: b.pads_begin ∧
      r.slice.beginMask = 1 :: 1 :: List.replicate b.pads_begin.length 0 ∧
      r.slice.endMask = 1 :: 1 :: List.replicate b.pads_end.length 0 ∧
      r.slice.strides = List.replicate (2 + b.pads_begin.length) 1 ∧
      (∀ i, i < b.pads_begin.length →
        r.slice.ends.getD (2 + i) 0 = r.inflated.getD i 0 - b.pads_end.getD i 0) ∧
      r.slice.shape = r.oldConvShape ∧
      r.oldConvShape = ds.getD 0 0 :: outChannelsOf b.kind fs :: target := by
  obtain ⟨r, h1, h2, h3, h4, h5, h6, h7, h8, h9, h10, h11, h12, h13, h14, h15, h16,
    h17, h18, h19, h20, h21⟩ := backprop_rewrite_run b ds fs target rt h
  refine ⟨r, h1, ?_, h13, h19, h20, h18, ?_, h21, h2⟩
  · intro i hi
    have := h4 i hi
    omega
  · intro i hi
    have ha := h17 i hi
    have hb := h11 i hi
    have hc := h4 i hi
    omega

/-- A matched 4-input fused node on which the backprop rewrite succeeds:
data `[1,2,5]`, filters `[2,3,2]`, pads `[1]/[0]`, own output `[1,3,5]`. -/
def c2_node : BackpropMatch :=
  { kind := .fusedK, numInputs := 4, dataShape := .ofStatic [1, 2, 5],
    dataType := .f32, filtersShape := .ofStatic [2, 3, 2], filtersType := .f32,
    input2Const := none, strides := [1], pads_begin := [1], pads_end := [0],
    dilations := [1], output_padding := [0], auto_pad := .explicitP,
    addShape := [1, 3, 5], addType := .f32, dataProducerOut0 := .ofStatic [1, 2, 5],
    nodeOutputShape := .ofStatic [1, 3, 5] }

/-- Witness for C2 at the concrete fused node. -/
theorem c2_slice_extracts_original_witness :
    ∃ r : BackpropRewriteOut,
      convolution_backprop_data_with_padding c2_node = .ok (some r) ∧
      r.slice.shape = r.oldConvShape := by
  obtain ⟨r, h1, _, _, _, _, _, _, h8, _⟩ :=
    c2_slice_extracts_original c2_node [1, 2, 5] [2, 3, 2] [5] .f32 (by unfold goodMatch; decide)
  exact ⟨r, h1, h8⟩

/-- Claim C9 (amended): for every backprop-family node a backprop pass
rewrites whose pads are non-negative (as `goodMatch` requires), the fatal
assertion `old_conv_shape != new_conv_shape` never fires — the
replacement's inferred output shape always differs from the original's.
With signed pads summing to zero per dimension the assertion does fire
(see the counterexample). -/
theorem c9_difference_assertion_holds (b : BackpropMatch) (ds fs target : List Int)
    (rt : ElemType) (h : goodMatch b ds fs target rt) :
    ∃ r : BackpropRewriteOut,
      convolution_backprop_data_with_padding b = .ok (some r) ∧
      r.newConvShape ≠ r.oldConvShape := by
  obtain ⟨r, h1, _, _, _, _, _, _, _, _, _, _, h12, _, _, _, _, _, _, _, _⟩ :=
    backprop_rewrite_run b ds fs target rt h
  exact ⟨r, h1, h12⟩

/-- A matched general backprop node with a constant output-shape input. -/
def c9_wit_node : BackpropMatch :=
  { kind := .generalK, numInputs := 3, dataShape := .ofStatic [1, 2, 5],
    dataType := .f32, filtersShape := .ofStatic [2, 3, 2], filtersType := .f32,
    input2Const := some [9], strides := [2], pads_begin := [1], pads_end := [0],
    dilations := [1], output_padding := [0], auto_pad := .explicitP,
    addShape := [], addType := .f32, dataProducerOut0 := .ofStatic [1, 2, 5],
    nodeOutputShape := .ofStatic [1, 3, 9] }

/-- Witness for C9 at a concrete general node. -/
theorem c9_difference_assertion_holds_witness :
    ∃ r : BackpropRewriteOut,
      convolution_backprop_data_with_padding c9_wit_node = .ok (some r) ∧
      r.newConvShape ≠ r.oldConvShape := by
  obtain ⟨r, h1, h2⟩ :=
    c9_difference_assertion_holds c9_wit_node [1, 2, 5] [2, 3, 2] [9] .f32 (by unfold goodMatch; decide)
  exact ⟨r, h1, h2⟩

/-- A fused match with signed pads `[1]/[-1]`: asymmetric, all shapes
static, own output `[1,3,6]` — exactly what its own inference computes. -/
def c9_neg_node : BackpropMatch :=
  { kind := .fusedK, numInputs := 4, dataShape := .ofStatic [1, 2, 5],
    dataType := .f32, filtersShape := .ofStatic [2, 3, 2], filtersType := .f32,
    input2Const := none, strides := [1], pads_begin := [1], pads_end := [-1],
    dilations := [1], output_padding := [0], auto_pad := .explicitP,
    addShape := [1, 3, 6], addType := .f32, dataProducerOut0 := .ofStatic [1, 2, 5],
    nodeOutputShape := .ofStatic [1, 3, 6] }

/-- Counterexample for C9 as stated: on a backprop-family node with
asymmetric static padding `[1]/[-1]` the inflated shape equals the original
shape, the replacement infers the same output shape, and the fatal
assertion fires. -/
theorem c9_counterexample :
    convolution_backprop_data_with_padding c9_neg_node
      = .error "Expects failed: old_conv_shape != new_conv_shape" := by decide

/-- Inversion of the replacement-construction stage: any successful
construction describes the replacement as having the inflated shape fed as
an explicit constant input, the 4-input fused constructor (with `add` from
position 3 or 2 of the original) for the fused kind and the upstream
3-input constructor otherwise. -/
theorem cbdp_replacement_infer_desc (b : BackpropMatch) (v : List Int)
    (rep : InferOut) (desc : ReplacementDesc)
    (h : cbdp_replacement_infer b v = .ok (rep, desc)) :
    desc = ⟨(if b.kind = .fusedK then 4 else 3), some v,
      (if b.kind = .fusedK then some (if b.numInputs = 4 then 3 else 2) else none)⟩ := by
  unfold cbdp_replacement_infer at h
  cases hk : b.kind
  case generalK =>
    rw [hk] at h
    dsimp only at h
    split at h
    · exact absurd h (by simp)
    · simp only [Except.ok.injEq, Prod.mk.injEq] at h
      simp [← h.2]
  case groupedK =>
    rw [hk] at h
    dsimp only at h
    split at h
    · exact absurd h (by simp)
    · simp only [Except.ok.injEq, Prod.mk.injEq] at h
      simp [← h.2]
  case fusedK =>
    rw [hk] at h
    dsimp only at h
    by_cases hni : b.numInputs = 4
    · rw [if_pos hni] at h
      split at h
      · exact absurd h (by simp)
      · simp only [Except.ok.injEq, Prod.mk.injEq] at h
        simp [hni, ← h.2]
    · rw [if_neg hni] at h
      split at h
      · exact absurd h (by simp)
      · simp only [Except.ok.injEq, Prod.mk.injEq] at h
        simp [hni, ← h.2]

/-- Claim C6 (amended): whenever the backprop rewrite fires, the
replacement node receives the inflated output shape as an explicit
constant input in every kind (including both fused branches — the claim's
"no explicit output-shape input" is wrong); the fused replacement is built
with the 4-input constructor and carries the `add` input through unchanged,
taking it from input position 3 when the original node has four inputs and
from position 2 when it has three, while the other kinds use the 3-input
constructor with no `add` input. -/
theorem c6_replacement_construction (b : BackpropMatch) (r : BackpropRewriteOut)
    (h : convolution_backprop_data_with_padding b = .ok (some r)) :
    r.replacement.shapeConstInput = some r.inflated ∧
    r.replacement.numInputs = (if b.kind = .fusedK then 4 else 3) ∧
    r.replacement.addIndex
      = (if b.kind = .fusedK then some (if b.numInputs = 4 then 3 else 2) else none) := by
  unfold convolution_backprop_data_with_padding at h
  split at h
  · exact absurd h (by simp)
  split at h
  · exact absurd h (by simp)
  split at h
  · exact absurd h (by simp)
  split at h
  · exact absurd h (by simp)
  · exact absurd h (by simp)
  rename_i static_conv heq2
  split at h
  · exact absurd h (by simp)
  rename_i inflated heq3
  split at h
  · exact absurd h (by simp)
  rename_i rep desc heq4
  split at h
  · exact absurd h (by simp)
  split at h
  · exact absurd h (by simp)
  split at h
  · exact absurd h (by simp)
  dsimp only at h
  split at h
  · exact absurd h (by simp)
  simp only [Except.ok.injEq, Option.some.injEq] at h
  have hdesc := cbdp_replacement_infer_desc b inflated rep desc heq4
  rw [← h]
  rw [hdesc]
  exact ⟨rfl, rfl, rfl⟩

/-- Witness for C6: the construction facts at the concrete fused node. -/
theorem c6_replacement_construction_witness :
    ∃ r : BackpropRewriteOut,
      convolution_backprop_data_with_padding c2_node = .ok (some r) ∧
      r.replacement.shapeConstInput = some r.inflated ∧
      r.replacement.numInputs = 4 ∧
      r.replacement.addIndex = some 3 := by
  obtain ⟨r, hrun, _⟩ := backprop_rewrite_run c2_node [1, 2, 5] [2, 3, 2] [5] .f32
    (by unfold goodMatch; decide)
  obtain ⟨ha, hb, hc⟩ := c6_replacement_construction c2_node r hrun
  refine ⟨r, hrun, ha, ?_, ?_⟩
  · simpa [c2_node] using hb
  · simpa [c2_node] using hc

/-- Counterexample for C6 as stated: on a concrete matched fused node the
rewrite succeeds and the replacement IS constructed with an explicit
output-shape input (the inflated constant `[6]`), not without one. -/
theorem c6_counterexample :
    (convolution_backprop_data_with_padding c2_node).map
        (Option.map fun r => r.replacement.shapeConstInput) = .ok (some (some [6])) ∧
    (some ([6] : List Int)) ≠ none := by decide

end ConvAsymPad
